import Mathlib

/-!
Shallow embedding of the WebSub notification pipeline of the
`yt_dashboard` repository (FastAPI webhook, WebSub subscription manager,
Atom feed parser, idempotent storage insert), together with theorems
settling the specification claims about it.

Python semantics modelled explicitly where they matter:
query-parameter dictionaries (`dict(request.query_params)`, last
occurrence of a key wins), `int(str)` (whitespace stripped, optional
sign, decimal digits; the underscore digit grouping Python also accepts
is not modelled — no claim involves it), `str.replace` (replaces every
occurrence, left to right, non overlapping), truthiness of optional
strings, and `hmac.compare_digest` on `str` arguments (ASCII only,
otherwise it raises `TypeError`).
-/

namespace YtDash

/-! ### Python-style primitives -/

/-- Whitespace accepted (and stripped) by Python `int(str)`. -/
def isPySpace (c : Char) : Bool :=
  c = ' ' || c = '\t' || c = '\n' || c = '\r' || c = '\x0b' || c = '\x0c'

/-- Value of a decimal digit character, `none` for a non-digit. -/
def digitVal (c : Char) : Option Nat :=
  if '0' ≤ c && c ≤ '9' then some (c.toNat - '0'.toNat) else none

/-- Accumulate a decimal digit string; fails on any non-digit. -/
def decDigitsCore (acc : Nat) : List Char → Option Nat
  | [] => some acc
  | c :: r =>
    match digitVal c with
    | some d => decDigitsCore (acc * 10 + d) r
    | none => none

/-- A non-empty all-digit string to the natural number it denotes. -/
def decDigits : List Char → Option Nat
  | [] => none
  | c :: r => decDigitsCore 0 (c :: r)

/-- Python `int(s)` for a string `s`: strip whitespace on both sides,
allow one optional sign, then require a non-empty run of decimal
digits.  `none` models the `ValueError` Python raises otherwise. -/
def pyInt (s : String) : Option Int :=
  let l := (((s.toList.dropWhile isPySpace).reverse.dropWhile isPySpace).reverse)
  match l with
  | '+' :: r => (decDigits r).map (fun n => (n : Int))
  | '-' :: r => (decDigits r).map (fun n => -(n : Int))
  | r => (decDigits r).map (fun n => (n : Int))

/-- `dict(request.query_params).get(k)`: Starlette's multidict keeps the
last value for a repeated key, so lookup takes the rightmost binding. -/
def pyDictGet (params : List (String × String)) (k : String) : Option String :=
  (params.reverse.find? (fun p => p.1 == k)).map (fun p => p.2)

/-- Python truthiness of an `Optional[str]`: `None` and `""` are falsy. -/
def pyTruthy : Option String → Bool
  | none => false
  | some s => s ≠ ""

/-! ### Configuration (src/src/utils/config.py) -/

/-- The two `Settings` fields the webhook handlers consult. -/
structure Settings where
  webhook_verify_token : String
  webhook_secret : String
deriving DecidableEq, Repr

/-! ### The webhook verification endpoint (src/src/api/webhook.py, GET) -/

/-- Outcome of one FastAPI request handler invocation.
`intBody n` is `return <int>` (FastAPI serialises it as the decimal
text of `n`); `strBody s` is `return <str>`; `httpError` is a raised
`HTTPException`; `raised` is any other uncaught Python exception
(FastAPI then answers 500). -/
inductive HttpResponse
  | intBody (n : Int)
  | strBody (s : String)
  | httpError (status : Nat) (detail : String)
  | raised
deriving DecidableEq, Repr

/-- The on-the-wire response body, when the handler returned normally.
An `int` return value is serialised as its decimal representation; a
`str` return value is JSON-quoted. -/
def HttpResponse.bodyText : HttpResponse → Option String
  | .intBody n => some (toString n)
  | .strBody s => some ("\"" ++ s ++ "\"")
  | .httpError _ _ => none
  | .raised => none

/-- `youtube_webhook_verification` (webhook.py lines 32–56).
Reads `hub.mode`, `hub.challenge`, `hub.verify_token` from the query
parameters.  On `subscribe` with the right token it executes
`return int(hub_challenge)`: a missing challenge raises `TypeError`
and a non-numeric one raises `ValueError` (both modelled by `.raised`). -/
def youtube_webhook_verification (params : List (String × String))
    (settings : Settings) : HttpResponse :=
  let hub_mode := pyDictGet params "hub.mode"
  let hub_challenge := pyDictGet params "hub.challenge"
  let hub_verify_token := pyDictGet params "hub.verify_token"
  if hub_mode = some "subscribe" then
    if hub_verify_token ≠ some settings.webhook_verify_token then
      .httpError 403 "Verification token mismatch"
    else
      match hub_challenge with
      | none => .raised
      | some c =>
        match pyInt c with
        | some n => .intBody n
        | none => .raised
  else if hub_mode = some "unsubscribe" then
    .strBody "Unsubscribed"
  else
    .httpError 400 "Invalid request mode"

/-! ### HMAC-SHA1 (Python `hmac.new(secret, body, hashlib.sha1).hexdigest()`)

Executable model of the digest the notification endpoint compares
against.  32-bit words are naturals kept below `2 ^ 32`; byte strings
are lists of naturals below 256. -/

/-- `2 ^ 32`. -/
def M32 : Nat := 4294967296

/-- Rotate a 32-bit word left by `n` (for `x < M32`, `0 < n < 32`). -/
def rotl32 (n x : Nat) : Nat :=
  ((x <<< n) ||| (x >>> (32 - n))) % M32

/-- UTF-8 encoding of one character (Python `str.encode()`). -/
def utf8Bytes (c : Char) : List Nat :=
  let n := c.toNat
  if n < 128 then [n]
  else if n < 2048 then [192 + n / 64, 128 + n % 64]
  else if n < 65536 then [224 + n / 4096, 128 + (n / 64) % 64, 128 + n % 64]
  else [240 + n / 262144, 128 + (n / 4096) % 64, 128 + (n / 64) % 64, 128 + n % 64]

/-- UTF-8 bytes of a string. -/
def strBytes (s : String) : List Nat :=
  (s.toList.map utf8Bytes).flatten

/-- `k` bytes of `n`, big-endian. -/
def beBytes : Nat → Nat → List Nat
  | 0, _ => []
  | k + 1, n => beBytes k (n / 256) ++ [n % 256]

/-- Group bytes into big-endian 32-bit words. -/
def beWords : List Nat → List Nat
  | a :: b :: c :: d :: r => (((a * 256 + b) * 256 + c) * 256 + d) :: beWords r
  | _ => []

/-- SHA-1 padding: `0x80`, zeros to 56 mod 64, 8-byte big-endian bit length. -/
def sha1Pad (msg : List Nat) : List Nat :=
  msg ++ [128] ++ List.replicate ((119 - msg.length % 64) % 64) 0
      ++ beBytes 8 (8 * msg.length)

/-- Split a word list into blocks of 16 (fuel keeps recursion structural). -/
def chunk16 : Nat → List Nat → List (List Nat)
  | 0, _ => []
  | _ + 1, [] => []
  | fuel + 1, ws => ws.take 16 :: chunk16 fuel (ws.drop 16)

/-- Extend 16 schedule words to 80; `acc` holds the words in reverse. -/
def sha1Extend : Nat → List Nat → List Nat
  | 0, acc => acc.reverse
  | k + 1, acc =>
    let w := rotl32 1 ((acc.getD 2 0) ^^^ (acc.getD 7 0) ^^^ (acc.getD 13 0) ^^^ (acc.getD 15 0))
    sha1Extend k (w :: acc)

/-- The SHA-1 round function for round `t`. -/
def sha1F (t b c d : Nat) : Nat :=
  if t < 20 then (b &&& c) ||| (((M32 - 1) ^^^ b) &&& d)
  else if t < 40 then b ^^^ c ^^^ d
  else if t < 60 then (b &&& c) ||| (b &&& d) ||| (c &&& d)
  else b ^^^ c ^^^ d

/-- The SHA-1 round constant for round `t`. -/
def sha1K (t : Nat) : Nat :=
  if t < 20 then 0x5A827999
  else if t < 40 then 0x6ED9EBA1
  else if t < 60 then 0x8F1BBCDC
  else 0xCA62C1D6

/-- One SHA-1 round: state `(a,b,c,d,e)` under `(t, w[t])`. -/
def sha1Round (st : Nat × Nat × Nat × Nat × Nat) (tw : Nat × Nat) :
    Nat × Nat × Nat × Nat × Nat :=
  let (a, b, c, d, e) := st
  let (t, w) := tw
  ((rotl32 5 a + sha1F t b c d + e + sha1K t + w) % M32, a, rotl32 30 b, c, d)

/-- Compress one 16-word chunk into the running hash state. -/
def sha1Chunk (h : Nat × Nat × Nat × Nat × Nat) (chunk : List Nat) :
    Nat × Nat × Nat × Nat × Nat :=
  let ws := sha1Extend 64 chunk.reverse
  let r := ((List.range 80).zip ws).foldl sha1Round h
  ((h.1 + r.1) % M32, (h.2.1 + r.2.1) % M32, (h.2.2.1 + r.2.2.1) % M32,
   (h.2.2.2.1 + r.2.2.2.1) % M32, (h.2.2.2.2 + r.2.2.2.2) % M32)

/-- SHA-1 digest (20 bytes) of a byte string. -/
def sha1Bytes (msg : List Nat) : List Nat :=
  let padded := sha1Pad msg
  let h := (chunk16 padded.length (beWords padded)).foldl sha1Chunk
    (0x67452301, 0xEFCDAB89, 0x98BADCFE, 0x10325476, 0xC3D2E1F0)
  beBytes 4 h.1 ++ beBytes 4 h.2.1 ++ beBytes 4 h.2.2.1
    ++ beBytes 4 h.2.2.2.1 ++ beBytes 4 h.2.2.2.2

/-- Lower-case hex digit. -/
def hexDigit (n : Nat) : Char :=
  if n < 10 then Char.ofNat (48 + n) else Char.ofNat (87 + n)

/-- Lower-case hex rendering of a byte string (`.hexdigest()`). -/
def bytesToHex (l : List Nat) : String :=
  String.mk ((l.map (fun b => [hexDigit (b / 16), hexDigit (b % 16)])).flatten)

/-- HMAC-SHA1, block size 64, per Python's `hmac` module. -/
def hmacSha1 (key msg : List Nat) : List Nat :=
  let k0 := if 64 < key.length then sha1Bytes key else key
  let kpad := k0 ++ List.replicate (64 - k0.length) 0
  sha1Bytes ((kpad.map (fun b => b ^^^ 92)) ++
    sha1Bytes ((kpad.map (fun b => b ^^^ 54)) ++ msg))

/-- `hmac.new(secret.encode(), body, hashlib.sha1).hexdigest()`. -/
def hexHmacSha1 (secret body : String) : String :=
  bytesToHex (hmacSha1 (strBytes secret) (strBytes body))

/-! ### The webhook notification endpoint (src/src/api/webhook.py, POST) -/

/-- `s.replace(pat, "")` on character lists: remove every occurrence of
`pat`, scanning left to right, non overlapping.  Fuel keeps the
recursion structural; each step consumes at least one character, so
`fuel = length of the list` always suffices. -/
def removeAllCore (pat : List Char) : Nat → List Char → List Char
  | _, [] => []
  | 0, l => l
  | fuel + 1, c :: r =>
    if !pat.isEmpty && pat.isPrefixOf (c :: r) then
      removeAllCore pat fuel ((c :: r).drop pat.length)
    else
      c :: removeAllCore pat fuel r

/-- Python `s.replace(pat, "")`. -/
def pyRemoveAll (s pat : String) : String :=
  String.mk (removeAllCore pat.toList s.toList.length s.toList)

/-- Whether every character of `s` is ASCII (Python `str.isascii()`). -/
def pyIsAscii (s : String) : Bool :=
  s.toList.all (fun c => c.toNat < 128)

/-- `hmac.compare_digest` on `str` arguments: equality for ASCII
strings; `none` models the `TypeError` it raises when either argument
has a non-ASCII character. -/
def compareDigestStr (a b : String) : Option Bool :=
  if pyIsAscii a && pyIsAscii b then some (a == b) else none

/-- Outcome of `youtube_webhook_notification`: `accepted body` is the
200 response with `body` handed to the background ingestion task;
`forbidden` the 403 `HTTPException`; `raisedNotif` an uncaught
exception.  Only `accepted` enqueues anything. -/
inductive NotifResponse
  | accepted (enqueued : String)
  | forbidden
  | raisedNotif
deriving DecidableEq, Repr

/-- `youtube_webhook_notification` (webhook.py lines 58–87).  The
signature check runs only when `settings.webhook_secret` and the
`X-Hub-Signature` header are both truthy; it removes every occurrence
of `"sha1="` from the header and compares against the hex HMAC-SHA1 of
the raw body with `hmac.compare_digest`.  On success the decoded body
is enqueued as a background task and a 200 is returned. -/
def youtube_webhook_notification (settings : Settings)
    (x_hub_signature : Option String) (body : String) : NotifResponse :=
  if settings.webhook_secret ≠ "" ∧ pyTruthy x_hub_signature = true then
    let signature := pyRemoveAll (x_hub_signature.getD "") "sha1="
    let expected := hexHmacSha1 settings.webhook_secret body
    match compareDigestStr signature expected with
    | none => .raisedNotif
    | some ok => if ok then .accepted body else .forbidden
  else
    .accepted body

/-! ### The feed parser (src/src/youtube/websub_handler.py, parse_atom_feed) -/

/-- The lazy group of `re.search(open ++ "(.*?)" ++ close, ·)` once the
open tag has been consumed: the characters before the first occurrence
of `close`, provided neither a newline (which `.` does not match) nor
the end of the string comes first. -/
def takeUntilClose (closeT : List Char) : List Char → Option (List Char)
  | [] => none
  | c :: r =>
    if closeT.isPrefixOf (c :: r) then some []
    else if c = '\n' then none
    else (takeUntilClose closeT r).map (fun l => c :: l)

/-- `re.search` for a pattern `open ++ "(.*?)" ++ close` with literal
tags: the leftmost start position where the open tag matches and a
close tag is reachable on the same line, lazy group contents. -/
def extractBetween (openT closeT : List Char) : List Char → Option (List Char)
  | [] => none
  | c :: r =>
    if openT.isPrefixOf (c :: r) then
      match takeUntilClose closeT ((c :: r).drop openT.length) with
      | some content => some content
      | none => extractBetween openT closeT r
    else extractBetween openT closeT r

/-- Python substring containment `pat in s` on character lists. -/
def containsSub (pat : List Char) : List Char → Bool
  | [] => pat.isEmpty
  | c :: r => pat.isPrefixOf (c :: r) || containsSub pat r

/-- The dictionary `WebSubHandler.parse_atom_feed` returns on success. -/
structure AtomVideoInfo where
  video_id : String
  channel_id : String
  title : Option String
  video_url : String
deriving DecidableEq, Repr

/-- The canonical watch URL built from a video id. -/
def watchUrl (video_id : String) : String :=
  "https://www.youtube.com/watch?v=" ++ video_id

/-- `<entry>` marker checked by the parser's guard. -/
def entryTag : List Char := "<entry>".toList

/-- `<yt:videoId>` opening tag. -/
def videoIdOpenTag : List Char := "<yt:videoId>".toList

/-- `</yt:videoId>` closing tag. -/
def videoIdCloseTag : List Char := "</yt:videoId>".toList

/-- `<yt:channelId>` opening tag. -/
def channelIdOpenTag : List Char := "<yt:channelId>".toList

/-- `</yt:channelId>` closing tag. -/
def channelIdCloseTag : List Char := "</yt:channelId>".toList

/-- `<title>` opening tag. -/
def titleOpenTag : List Char := "<title>".toList

/-- `</title>` closing tag. -/
def titleCloseTag : List Char := "</title>".toList

/-- `WebSubHandler.parse_atom_feed` (websub_handler.py lines 106–137).
Guard: `'<entry>' in feed and '<yt:videoId>' in feed`; then three
`re.search` extractions; the final `if video_id and channel_id` is
Python truthiness, so an empty extracted string also fails. -/
def parse_atom_feed (feed_content : String) : Option AtomVideoInfo :=
  let l := feed_content.toList
  if containsSub entryTag l && containsSub videoIdOpenTag l then
    let video_id := (extractBetween videoIdOpenTag videoIdCloseTag l).map String.mk
    let channel_id := (extractBetween channelIdOpenTag channelIdCloseTag l).map String.mk
    let title := (extractBetween titleOpenTag titleCloseTag l).map String.mk
    match video_id, channel_id with
    | some v, some c =>
      if v ≠ "" ∧ c ≠ "" then some ⟨v, c, title, watchUrl v⟩ else none
    | _, _ => none
  else
    none

/-! ### Storage (src/src/database/json_storage.py, mongodb_client.py) -/

/-- `VideoMetadata` (src/src/database/models.py), with `datetime` and
the category enum rendered as strings. -/
structure VideoMetadata where
  video_id : String
  title : String
  url : String
  upload_date : String
  view_count : Nat
  like_count : Nat
  description : String
  channel_id : String
  channel_title : String
  thumbnail_url : String
  duration : Option String
  tags : List String
  category_id : Option String
  category : Option String
  processed_at : String
deriving DecidableEq, Repr

/-- `JSONStorage.insert_video` (json_storage.py lines 52–70) as a state
transformer on the decoded `videos.json` list: result flag and new
list.  A record whose `video_id` is already present is left alone and
the call returns `False` (`return False  # Already exists`).  The
wall-clock `created_at` field added to the stored dict is not modelled;
no claim mentions it. -/
def jsonInsertVideo (videos : List VideoMetadata)
    (video_data : VideoMetadata) : Bool × List VideoMetadata :=
  if videos.any (fun v => v.video_id == video_data.video_id) then
    (false, videos)
  else
    (true, videos ++ [video_data])

/-- `MongoDBClient.insert_video` (mongodb_client.py lines 134–153) on
the MongoDB path: `insert_one` against the unique index on `video_id`
raises `DuplicateKeyError` for a present id, which the method catches
and turns into `True` (duplicate treated as success); an acknowledged
fresh insert returns `result.acknowledged = True`. -/
def mongoInsertVideo (collection : List VideoMetadata)
    (video_data : VideoMetadata) : Bool × List VideoMetadata :=
  if collection.any (fun v => v.video_id == video_data.video_id) then
    (true, collection)
  else
    (true, collection ++ [video_data])

/-- `MongoDBClient.insert_video` including the
`if self.use_json_fallback` dispatch to `JSONStorage.insert_video`. -/
def insert_video (use_json_fallback : Bool) (store : List VideoMetadata)
    (video_data : VideoMetadata) : Bool × List VideoMetadata :=
  if use_json_fallback then jsonInsertVideo store video_data
  else mongoInsertVideo store video_data

/-! ### The ingestion coordinator (src/src/api/webhook.py, lines 89–132) -/

/-- Observable outcome of one `process_youtube_notification` run: the
number of extractor calls, the number of storage insert calls, and the
storage contents afterwards.  The whole body sits inside
`try/except Exception`, so no exception escapes; the model is
accordingly a total function. -/
structure IngestOutcome where
  extractorCalls : Nat
  insertCalls : Nat
  store : List VideoMetadata
deriving DecidableEq, Repr

/-- `process_youtube_notification` (webhook.py lines 89–132), in both
storage configurations.  The duplicate lookup is
`db_client.collection.find_one({"video_id": ...})`; when MongoDB was
unreachable at startup (`use_json_fallback`), `_setup_json_fallback`
leaves `self.collection = None`, so this lookup raises
`AttributeError`, the `except Exception` arm swallows it, and the
notification is dropped before any extractor or insert call.  On the
connected configuration the lookup consults the collection and the
write goes through `db_client.insert_video` (MongoDB path).
`extractor` stands for the external
`youtube_extractor.get_video_details`, keyed by the canonical watch
URL; a pydantic validation failure of the returned dict
(`VideoMetadata(**video_data)` raising inside the `try`) has the same
observable outcome as the extractor returning nothing and is folded
into `none`. -/
def process_youtube_notification (use_json_fallback : Bool)
    (notification_body : String) (store : List VideoMetadata)
    (extractor : String → Option VideoMetadata) : IngestOutcome :=
  match parse_atom_feed notification_body with
  | none => ⟨0, 0, store⟩
  | some info =>
    if use_json_fallback then ⟨0, 0, store⟩
    else if store.any (fun v => v.video_id == info.video_id) then ⟨0, 0, store⟩
    else
      match extractor (watchUrl info.video_id) with
      | none => ⟨1, 0, store⟩
      | some video_data => ⟨1, 1, (mongoInsertVideo store video_data).2⟩

/-! ### The subscription manager (src/src/youtube/websub_handler.py) -/

/-- What the hub did with one outbound subscribe POST: an HTTP status
code, or a network-level failure (`aiohttp` raising). -/
inductive HubOutcome
  | status (code : Nat)
  | netError
deriving DecidableEq, Repr

/-- `WebSubHandler.subscribe_to_channel` (websub_handler.py lines
29–56): `True` on `response.status in [202, 204]`, `False` on any
other status, and `False` when the request raises (the
`except Exception` arm). -/
def subscribe_to_channel (response : HubOutcome) : Bool :=
  match response with
  | .status code => [202, 204].contains code
  | .netError => false

/-- Python dict assignment `results[channel_id] = success`: overwrite
an existing key in place, otherwise append (insertion order kept). -/
def dictInsert (d : List (String × Bool)) (k : String) (v : Bool) :
    List (String × Bool) :=
  if d.any (fun p => p.1 == k) then
    d.map (fun p => if p.1 == k then (k, v) else p)
  else
    d ++ [(k, v)]

/-- `results` accumulation loop of `subscribe_to_all_channels`:
`i` numbers the outbound requests, `hub i` is what the hub did with
the `i`-th one. -/
def subscribeAllCore (hub : Nat → HubOutcome) :
    Nat → List String → List (String × Bool) → List (String × Bool)
  | _, [], results => results
  | i, ch :: rest, results =>
    subscribeAllCore hub (i + 1) rest
      (dictInsert results ch (subscribe_to_channel (hub i)))

/-- `WebSubHandler.subscribe_to_all_channels` (websub_handler.py lines
83–99): iterate the configured channels in order, one hub request per
channel, collecting a `channel_id -> bool` dict.  The
`asyncio.sleep(1)` politeness delay between requests does not affect
the returned mapping. -/
def subscribe_to_all_channels (channels : List String)
    (hub : Nat → HubOutcome) : List (String × Bool) :=
  subscribeAllCore hub 0 channels []

/-- `WebSubHandler.renew_subscriptions` (websub_handler.py lines
101–104): logs and returns `await self.subscribe_to_all_channels()`. -/
def renew_subscriptions (channels : List String)
    (hub : Nat → HubOutcome) : List (String × Bool) :=
  subscribe_to_all_channels channels hub

/-- The three monitored channel ids of
`ChannelManager._initialize_channels` (channel_manager.py), in
insertion order. -/
def monitoredChannels : List String :=
  ["UCaIGZ2lNpryhA-p9KXr5XNw", "UCUDXkpsJIdv1aKb1TCN2p0Q", "UCDANGgqLMuoRfpX75LP7bUQ"]

/-- Per-channel subscribe results written straight down, with request
numbering starting at `i`: the mapping `subscribe_to_all_channels`
should produce when no channel id repeats. -/
def indexedResults (hub : Nat → HubOutcome) : Nat → List String → List (String × Bool)
  | _, [] => []
  | i, ch :: rest => (ch, subscribe_to_channel (hub i)) :: indexedResults hub (i + 1) rest

/-- Modelled from the spec: the signature acceptance condition as the
spec words it — the header value "after stripping its algorithm
prefix", i.e. one leading `"sha1="` removed, nothing else touched.
Compared against the code's `replace`-everywhere behaviour. -/
def specStripAlgPrefix (s : String) : String :=
  if "sha1=".toList.isPrefixOf s.toList then String.mk (s.toList.drop 5) else s

/-- A concrete record for witnesses and counterexamples. -/
def sampleVideo : VideoMetadata :=
  ⟨"abc123", "My Video", watchUrl "abc123", "2024-01-01T00:00:00Z", 3, 1,
   "", "UCxyz", "Some Channel", "", none, [], none, some "other",
   "2024-01-02T00:00:00Z"⟩

/-- A second concrete record with a different `video_id`. -/
def sampleVideoB : VideoMetadata :=
  ⟨"zzz999", "Other Video", watchUrl "zzz999", "2024-02-01T00:00:00Z", 0, 0,
   "", "UCxyz", "Some Channel", "", none, [], none, some "other",
   "2024-02-02T00:00:00Z"⟩

/-- Hub behaviour of the spec's fan-out scenario: the second request is
answered 403, the others 204. -/
def hubScenario843 : Nat → HubOutcome :=
  fun i => if i = 1 then .status 403 else .status 204

/-- The well-formed snippet named by the spec's feed-parsing property. -/
def wellFormedSnippet : String :=
  "<feed><entry><yt:videoId>abc123</yt:videoId><yt:channelId>UCxyz</yt:channelId><title>My Video</title></entry></feed>"

/-! ## Helper lemmas -/

/-- A search for a pattern that occurs nowhere in the text fails. -/
theorem extractBetween_eq_none (openT closeT : List Char) :
    ∀ l : List Char, containsSub openT l = false →
      extractBetween openT closeT l = none := by
  intro l
  induction l with
  | nil => intro h; rfl
  | cons c r ih =>
    intro h
    rw [containsSub, Bool.or_eq_false_iff] at h
    rw [extractBetween, if_neg (by simp [h.1]), ih h.2]

/-- Removing pattern occurrences never introduces characters. -/
theorem mem_removeAllCore (pat : List Char) :
    ∀ (fuel : Nat) (l : List Char) (c : Char), c ∈ removeAllCore pat fuel l → c ∈ l := by
  intro fuel
  induction fuel with
  | zero =>
    intro l c h
    cases l with
    | nil => simp [removeAllCore] at h
    | cons a r => exact h
  | succ fuel ih =>
    intro l c h
    cases l with
    | nil => simp [removeAllCore] at h
    | cons a r =>
      simp only [removeAllCore] at h
      by_cases hp : (!pat.isEmpty && pat.isPrefixOf (a :: r)) = true
      · rw [if_pos hp] at h
        exact List.mem_of_mem_drop (ih _ _ h)
      · rw [if_neg hp] at h
        rcases List.mem_cons.mp h with h1 | h2
        · exact h1 ▸ List.mem_cons_self _ _
        · exact List.mem_cons_of_mem _ (ih _ _ h2)

/-- `str.replace` keeps an ASCII string ASCII. -/
theorem pyRemoveAll_ascii (s pat : String) (h : pyIsAscii s = true) :
    pyIsAscii (pyRemoveAll s pat) = true := by
  simp only [pyIsAscii, List.all_eq_true, decide_eq_true_eq] at h ⊢
  intro c hc
  exact h c (mem_removeAllCore _ _ _ _ hc)

/-- Big-endian byte decompositions really are bytes. -/
theorem beBytes_lt : ∀ (k n : Nat), ∀ b ∈ beBytes k n, b < 256 := by
  intro k
  induction k with
  | zero => intro n b h; simp [beBytes] at h
  | succ k ih =>
    intro n b h
    simp only [beBytes] at h
    rcases List.mem_append.mp h with h1 | h2
    · exact ih _ _ h1
    · have hb : b = n % 256 := by simpa using h2
      subst hb
      exact Nat.mod_lt _ (by decide)

/-- A SHA-1 digest consists of bytes. -/
theorem sha1Bytes_lt (msg : List Nat) : ∀ b ∈ sha1Bytes msg, b < 256 := by
  intro b h
  simp only [sha1Bytes, List.mem_append] at h
  rcases h with ((((h | h) | h) | h) | h) <;> exact beBytes_lt _ _ _ h

/-- Hex digits are ASCII. -/
theorem hexDigit_lt : ∀ n, n < 16 → (hexDigit n).toNat < 128 := by decide

/-- The hex rendering of a byte string is ASCII. -/
theorem bytesToHex_ascii (l : List Nat) (hl : ∀ b ∈ l, b < 256) :
    pyIsAscii (bytesToHex l) = true := by
  simp only [pyIsAscii, bytesToHex, String.toList, List.all_eq_true, decide_eq_true_eq]
  intro c hc
  simp only [List.mem_flatten, List.mem_map] at hc
  rcases hc with ⟨w, ⟨b, hb, hw⟩, hcw⟩
  have hb256 := hl b hb
  subst hw
  rcases List.mem_cons.mp hcw with h1 | h2
  · subst h1; exact hexDigit_lt _ (by omega)
  · have hc2 : c = hexDigit (b % 16) := by simpa using h2
    subst hc2
    exact hexDigit_lt _ (by omega)

/-- An HMAC-SHA1 hexdigest is ASCII, as `hmac.compare_digest` needs. -/
theorem hexHmac_ascii (secret body : String) :
    pyIsAscii (hexHmacSha1 secret body) = true := by
  apply bytesToHex_ascii
  intro b h
  simp only [hexHmacSha1, hmacSha1] at h ⊢
  exact sha1Bytes_lt _ b h

/-- With a truthy secret and a truthy ASCII signature header, the
notification handler reduces to the digest comparison: accept on
equality of the `"sha1="`-stripped header with the expected hexdigest,
403 otherwise. -/
theorem notif_characterization (token secret sig body : String)
    (hsec : secret ≠ "") (hsig : sig ≠ "") (hascii : pyIsAscii sig = true) :
    youtube_webhook_notification ⟨token, secret⟩ (some sig) body =
      (if pyRemoveAll sig "sha1=" = hexHmacSha1 secret body then .accepted body
       else .forbidden) := by
  have hcond : (Settings.mk token secret).webhook_secret ≠ "" ∧
      pyTruthy (some sig) = true := ⟨hsec, by simp [pyTruthy, hsig]⟩
  unfold youtube_webhook_notification
  rw [if_pos hcond]
  simp only [Option.getD_some]
  rw [compareDigestStr,
    if_pos (by rw [pyRemoveAll_ascii _ _ hascii, hexHmac_ascii]; rfl)]
  by_cases he : pyRemoveAll sig "sha1=" = hexHmacSha1 secret body
  · rw [if_pos he]
    simp [he]
  · rw [if_neg he]
    simp [he]

/-! ## Claim theorems -/

set_option maxRecDepth 100000 in
/-- C4, counterexample.  The code runs
`x_hub_signature.replace('sha1=', '')`, which removes every occurrence
of `"sha1="`, not just a leading prefix: the header
`"sha1=sha1=" ++ digest` is accepted although stripping one `"sha1="`
prefix leaves `"sha1=" ++ digest`, which differs from the digest — so
acceptance is not equivalent to the claim's prefix-stripping rule. -/
theorem c4_counterexample :
    youtube_webhook_notification ⟨"youtube_verify_token", "s3cret"⟩
      (some ("sha1=sha1=" ++ hexHmacSha1 "s3cret" "hello")) "hello" = .accepted "hello" ∧
    specStripAlgPrefix ("sha1=sha1=" ++ hexHmacSha1 "s3cret" "hello")
      ≠ hexHmacSha1 "s3cret" "hello" := by
  constructor
  · decide
  · decide

/-- C4, amended.  With a configured secret and a non-empty ASCII
signature header, the request is accepted iff the header with every
`"sha1="` occurrence removed equals the hex HMAC-SHA1 of the raw body
keyed by the secret; on mismatch the response is the 403 forbidden
error and no ingestion task is enqueued. -/
theorem c4_signature_check :
    ∀ (token secret sig body : String),
      secret ≠ "" → sig ≠ "" → pyIsAscii sig = true →
      (youtube_webhook_notification ⟨token, secret⟩ (some sig) body = .accepted body ↔
        pyRemoveAll sig "sha1=" = hexHmacSha1 secret body) ∧
      (pyRemoveAll sig "sha1=" ≠ hexHmacSha1 secret body →
        youtube_webhook_notification ⟨token, secret⟩ (some sig) body = .forbidden) := by
  intro token secret sig body hsec hsig hascii
  rw [notif_characterization token secret sig body hsec hsig hascii]
  constructor
  · by_cases he : pyRemoveAll sig "sha1=" = hexHmacSha1 secret body
    · rw [if_pos he]; simp [he]
    · rw [if_neg he]; simp [he]
  · intro hne
    rw [if_neg hne]

set_option maxRecDepth 100000 in
/-- C4, witness: the spec's own test vector — secret `"s3cret"`, body
`"hello"`, header `"sha1=" ++ hex HMAC-SHA1` — is accepted. -/
theorem c4_witness :
    youtube_webhook_notification ⟨"t", "s3cret"⟩
      (some "sha1=f875ad165d97aba6b68e2c2f7ea314aeb2a0082f") "hello" = .accepted "hello" :=
  ((c4_signature_check "t" "s3cret" "sha1=f875ad165d97aba6b68e2c2f7ea314aeb2a0082f" "hello"
    (by decide) (by decide) (by decide)).1).mpr (by decide)

/-- C1, counterexample.  On the JSON flat-file fallback path the claim
fails: inserting a record whose `video_id` is already stored creates no
second record but reports `False`, not success. -/
theorem c1_counterexample :
    (insert_video true [sampleVideo] sampleVideo).1 = false ∧
    (insert_video true [sampleVideo] sampleVideo).2 = [sampleVideo] := by
  decide

/-- C1, amended.  A duplicate insert never creates a second record on
either path; the MongoDB path reports success (`DuplicateKeyError`
caught and turned into `True`), while the JSON fallback path reports
`False`. -/
theorem c1_insert_idempotency :
    ∀ (store : List VideoMetadata) (v : VideoMetadata),
      store.any (fun r => r.video_id == v.video_id) = true →
      insert_video false store v = (true, store) ∧
      insert_video true store v = (false, store) := by
  intro store v h
  constructor <;> simp [insert_video, mongoInsertVideo, jsonInsertVideo, h]

/-- C1, witness: the amended statement at a concrete duplicate. -/
theorem c1_witness :
    ([sampleVideo].any (fun r => r.video_id == sampleVideo.video_id) = true) ∧
    insert_video false [sampleVideo] sampleVideo = (true, [sampleVideo]) ∧
    insert_video true [sampleVideo] sampleVideo = (false, [sampleVideo]) :=
  ⟨by decide, (c1_insert_idempotency [sampleVideo] sampleVideo (by decide)).1,
    (c1_insert_idempotency [sampleVideo] sampleVideo (by decide)).2⟩

/-- C5.  The spec's well-formed snippet parses to exactly the expected
fields, and any feed missing the `<yt:videoId>` or the `<yt:channelId>`
marker parses to `none` — no partial record. -/
theorem c5_feed_parsing :
    parse_atom_feed wellFormedSnippet =
      some ⟨"abc123", "UCxyz", some "My Video",
            "https://www.youtube.com/watch?v=abc123"⟩ ∧
    ∀ feed : String,
      containsSub videoIdOpenTag feed.toList = false ∨
      containsSub channelIdOpenTag feed.toList = false →
      parse_atom_feed feed = none := by
  constructor
  · decide
  · intro feed h
    rcases h with h | h
    · simp [parse_atom_feed, String.toList] at h ⊢
      simp [h]
    · simp only [String.toList] at h
      rcases hx : extractBetween videoIdOpenTag videoIdCloseTag feed.data with _ | v
      · simp [parse_atom_feed, String.toList, hx, extractBetween_eq_none _ _ _ h]
      · simp [parse_atom_feed, String.toList, hx, extractBetween_eq_none _ _ _ h]

/-- C5, witness: the universally quantified half at a feed with an
entry and a video id but no channel id marker. -/
theorem c5_witness :
    parse_atom_feed "<entry><yt:videoId>abc123</yt:videoId></entry>" = none :=
  c5_feed_parsing.2 "<entry><yt:videoId>abc123</yt:videoId></entry>" (Or.inr (by decide))

/-- C7.  `subscribe_to_channel` returns `true` exactly for hub statuses
202 and 204, and `false` on a network-level failure (the handler's
`except` arm), rather than raising. -/
theorem c7_subscribe_status :
    (∀ code : Nat,
      subscribe_to_channel (.status code) = true ↔ (code = 202 ∨ code = 204)) ∧
    subscribe_to_channel .netError = false := by
  constructor
  · intro code
    simp [subscribe_to_channel, List.contains]
  · rfl

/-- C6.  Handshake error handling: on `subscribe` with a wrong (or
missing) verify token the response is the 403 token-mismatch error and
no challenge is echoed; `unsubscribe` is acknowledged unconditionally,
with no token check; any other mode (or no mode) gets the 400
bad-request error. -/
theorem c6_handshake_modes :
    ∀ (params : List (String × String)) (settings : Settings),
      (pyDictGet params "hub.mode" = some "subscribe" →
        pyDictGet params "hub.verify_token" ≠ some settings.webhook_verify_token →
        youtube_webhook_verification params settings =
          .httpError 403 "Verification token mismatch") ∧
      (pyDictGet params "hub.mode" = some "unsubscribe" →
        youtube_webhook_verification params settings = .strBody "Unsubscribed") ∧
      (pyDictGet params "hub.mode" ≠ some "subscribe" →
        pyDictGet params "hub.mode" ≠ some "unsubscribe" →
        youtube_webhook_verification params settings =
          .httpError 400 "Invalid request mode") := by
  intro params settings
  refine ⟨fun h1 h2 => ?_, fun h1 => ?_, fun h1 h2 => ?_⟩
  · simp [youtube_webhook_verification, h1, h2]
  · simp [youtube_webhook_verification, h1]
  · simp [youtube_webhook_verification, h1, h2]

/-- C6, witness: all three arms at concrete requests against the
default configuration. -/
theorem c6_witness :
    youtube_webhook_verification [("hub.mode", "subscribe"), ("hub.verify_token", "wrong")]
      ⟨"youtube_verify_token", "youtube_webhook_secret"⟩ =
      .httpError 403 "Verification token mismatch" ∧
    youtube_webhook_verification [("hub.mode", "unsubscribe")]
      ⟨"youtube_verify_token", "youtube_webhook_secret"⟩ = .strBody "Unsubscribed" ∧
    youtube_webhook_verification [("hub.mode", "whatever")]
      ⟨"youtube_verify_token", "youtube_webhook_secret"⟩ =
      .httpError 400 "Invalid request mode" :=
  ⟨(c6_handshake_modes _ _).1 (by decide) (by decide),
   (c6_handshake_modes _ _).2.1 (by decide),
   (c6_handshake_modes _ _).2.2 (by decide) (by decide)⟩

/-- C2, counterexample.  The handler runs `return int(hub_challenge)`,
not a verbatim echo: with the correct token and challenge `"007"` the
response body is `"7"`, which differs from the supplied challenge. -/
theorem c2_counterexample :
    (youtube_webhook_verification
      [("hub.mode", "subscribe"), ("hub.verify_token", "youtube_verify_token"),
       ("hub.challenge", "007")]
      ⟨"youtube_verify_token", "youtube_webhook_secret"⟩).bodyText = some "7" ∧
    "7" ≠ "007" := by
  decide

/-- C2, amended.  The challenge is echoed exactly when it is the
canonical decimal rendering of the integer Python's `int()` parses it
to; the handler then answers with that integer, whose serialised body
is the challenge string again. -/
theorem c2_challenge_echo :
    ∀ (challenge token secret : String) (n : Int),
      pyInt challenge = some n → toString n = challenge →
      (youtube_webhook_verification
        [("hub.mode", "subscribe"), ("hub.verify_token", token), ("hub.challenge", challenge)]
        ⟨token, secret⟩).bodyText = some challenge := by
  intro challenge token secret n h1 h2
  have hm : pyDictGet
      [("hub.mode", "subscribe"), ("hub.verify_token", token), ("hub.challenge", challenge)]
      "hub.mode" = some "subscribe" := rfl
  have ht : pyDictGet
      [("hub.mode", "subscribe"), ("hub.verify_token", token), ("hub.challenge", challenge)]
      "hub.verify_token" = some token := rfl
  have hc : pyDictGet
      [("hub.mode", "subscribe"), ("hub.verify_token", token), ("hub.challenge", challenge)]
      "hub.challenge" = some challenge := rfl
  simp [youtube_webhook_verification, hm, ht, hc, h1, HttpResponse.bodyText, h2]

/-- C2, witness: a canonical numeric challenge is echoed verbatim. -/
theorem c2_witness :
    (youtube_webhook_verification
      [("hub.mode", "subscribe"), ("hub.verify_token", "youtube_verify_token"),
       ("hub.challenge", "42")]
      ⟨"youtube_verify_token", "youtube_webhook_secret"⟩).bodyText = some "42" :=
  c2_challenge_echo "42" "youtube_verify_token" "youtube_webhook_secret" 42
    (by decide) (by decide)

/-- C9.  `renew_subscriptions` literally returns
`subscribe_to_all_channels()`: the same requests and the same mapping
for every configuration and every sequence of hub responses. -/
theorem c9_renew_equals_subscribe_all :
    ∀ (channels : List String) (hub : Nat → HubOutcome),
      renew_subscriptions channels hub = subscribe_to_all_channels channels hub :=
  fun _ _ => rfl

/-- The result dict of the fan-out loop is the per-channel results in
order, provided no configured channel id repeats and none is already a
key of the accumulator. -/
theorem subscribeAllCore_eq (hub : Nat → HubOutcome) :
    ∀ (channels : List String) (i : Nat) (results : List (String × Bool)),
      channels.Nodup →
      (∀ c ∈ channels, results.any (fun p => p.1 == c) = false) →
      subscribeAllCore hub i channels results
        = results ++ indexedResults hub i channels := by
  intro channels
  induction channels with
  | nil => intro i results _ _; simp [subscribeAllCore, indexedResults]
  | cons ch rest ih =>
    intro i results hnd hfresh
    have hch : results.any (fun p => p.1 == ch) = false := hfresh ch (by simp)
    have hins : dictInsert results ch (subscribe_to_channel (hub i))
        = results ++ [(ch, subscribe_to_channel (hub i))] := by
      simp [dictInsert, hch]
    have hfresh2 : ∀ c ∈ rest,
        (results ++ [(ch, subscribe_to_channel (hub i))]).any (fun p => p.1 == c) = false := by
      intro c hc
      have hne : ch ≠ c := by
        intro e
        exact (List.nodup_cons.mp hnd).1 (e ▸ hc)
      have h1 : results.any (fun p => p.1 == c) = false :=
        hfresh c (List.mem_cons_of_mem _ hc)
      simp [List.any_append, h1, hne]
    simp only [subscribeAllCore]
    rw [hins, ih (i + 1) _ (List.nodup_cons.mp hnd).2 hfresh2]
    simp [indexedResults]

/-- C8.  With distinct configured channel ids, `subscribe_to_all_channels`
returns exactly the per-channel results of the sequential hub requests;
on the spec's 204/403/204 scenario over the three monitored channels
the mapping has one `false` and two `true` entries. -/
theorem c8_subscribe_fanout :
    (∀ (channels : List String) (hub : Nat → HubOutcome), channels.Nodup →
      subscribe_to_all_channels channels hub = indexedResults hub 0 channels) ∧
    ((subscribe_to_all_channels monitoredChannels hubScenario843).filter
        (fun p => p.2 == false)).length = 1 ∧
    ((subscribe_to_all_channels monitoredChannels hubScenario843).filter
        (fun p => p.2 == true)).length = 2 := by
  refine ⟨?_, by decide, by decide⟩
  intro channels hub h
  exact subscribeAllCore_eq hub channels 0 [] h (fun c _ => rfl)

/-- C8, witness: the general mapping statement at two concrete channels. -/
theorem c8_witness :
    subscribe_to_all_channels ["UCa", "UCb"] (fun _ => .status 204)
      = indexedResults (fun _ => .status 204) 0 ["UCa", "UCb"] :=
  c8_subscribe_fanout.1 ["UCa", "UCb"] (fun _ => .status 204) (by decide)

/-- C3, counterexample.  On the JSON-fallback configuration the claim
fails: the spec's snippet parses, the video is never seen (empty
store), and the extractor would return metadata for its watch URL —
yet the coordinator makes zero extractor calls and zero insert calls,
because `db_client.collection` is `None` and the duplicate lookup
raises an `AttributeError` that the handler swallows. -/
theorem c3_counterexample :
    parse_atom_feed wellFormedSnippet =
      some ⟨"abc123", "UCxyz", some "My Video", watchUrl "abc123"⟩ ∧
    (fun u => if u = watchUrl "abc123" then some sampleVideo else none)
      (watchUrl "abc123") = some sampleVideo ∧
    process_youtube_notification true wellFormedSnippet []
      (fun u => if u = watchUrl "abc123" then some sampleVideo else none) =
      ⟨0, 0, []⟩ := by
  refine ⟨by decide, by decide, by decide⟩

/-- C3, amended.  On the MongoDB-connected configuration the claim's
three statements hold: an already-stored `video_id` causes zero
extractor calls and zero insert calls; a never-seen id whose extractor
lookup succeeds causes exactly one insert, of the enriched record.  On
the JSON-fallback configuration every notification is dropped with
zero extractor and zero insert calls (the idempotency lookup raises on
the `None` collection and is swallowed).  In every case the handler is
a total function (`try/except Exception`), so no exception escapes. -/
theorem c3_ingest_coordinator :
    ∀ (body : String) (store : List VideoMetadata)
      (extr : String → Option VideoMetadata),
      (∀ info, parse_atom_feed body = some info →
        store.any (fun v => v.video_id == info.video_id) = true →
        process_youtube_notification false body store extr = ⟨0, 0, store⟩) ∧
      (∀ info md, parse_atom_feed body = some info →
        store.any (fun v => v.video_id == info.video_id) = false →
        extr (watchUrl info.video_id) = some md →
        process_youtube_notification false body store extr =
          ⟨1, 1, (mongoInsertVideo store md).2⟩) ∧
      process_youtube_notification true body store extr = ⟨0, 0, store⟩ := by
  intro body store extr
  refine ⟨?_, ?_, ?_⟩
  · intro info hp ha
    simp [process_youtube_notification, hp, ha]
  · intro info md hp ha he
    simp [process_youtube_notification, hp, ha, he]
  · cases hp : parse_atom_feed body <;> simp [process_youtube_notification, hp]

/-- C3, witness: both connected-configuration branches at the spec's
snippet — a repeat notification leaves everything untouched, a fresh
one stores exactly the extractor's record. -/
theorem c3_witness :
    process_youtube_notification false wellFormedSnippet [sampleVideo] (fun _ => none) =
      ⟨0, 0, [sampleVideo]⟩ ∧
    process_youtube_notification false wellFormedSnippet []
        (fun u => if u = watchUrl "abc123" then some sampleVideo else none) =
      ⟨1, 1, [sampleVideo]⟩ := by
  constructor
  · exact (c3_ingest_coordinator _ _ _).1
      ⟨"abc123", "UCxyz", some "My Video", watchUrl "abc123"⟩ (by decide) (by decide)
  · have h := (c3_ingest_coordinator wellFormedSnippet []
      (fun u => if u = watchUrl "abc123" then some sampleVideo else none)).2.1
      ⟨"abc123", "UCxyz", some "My Video", watchUrl "abc123"⟩ sampleVideo
      (by decide) (by decide) (by decide)
    simpa using h

/-- C10.  A missing `X-Hub-Signature` header skips verification
entirely — the notification is accepted and its body enqueued even when
a secret is configured — and a 403 signature rejection can only happen
when the configured secret and the supplied header are both truthy. -/
theorem c10_missing_signature_skips :
    (∀ (settings : Settings) (body : String),
      youtube_webhook_notification settings none body = .accepted body) ∧
    (∀ (settings : Settings) (sig : Option String) (body : String),
      youtube_webhook_notification settings sig body = .forbidden →
      settings.webhook_secret ≠ "" ∧ pyTruthy sig = true) := by
  constructor
  · intro settings body
    simp [youtube_webhook_notification, pyTruthy]
  · intro settings sig body h
    by_cases hc : settings.webhook_secret ≠ "" ∧ pyTruthy sig = true
    · exact hc
    · unfold youtube_webhook_notification at h
      rw [if_neg hc] at h
      exact absurd h (by simp)

set_option maxRecDepth 10000 in
/-- C10, witness: the only-if direction at a concrete 403 rejection. -/
theorem c10_witness :
    (({ webhook_verify_token := "t", webhook_secret := "s3cret" } : Settings).webhook_secret
      ≠ "") ∧ pyTruthy (some "sha1=bad") = true :=
  c10_missing_signature_skips.2 ⟨"t", "s3cret"⟩ (some "sha1=bad") "hello" (by decide)

end YtDash
